import Mathlib

/-!
Verification of the runtime adapter (`bentoml/_internal/runner/local.py`)
and of `CondaEnv.add_channels` (`bentoml/service/env.py`).

The adapter (`LocalRunner`) wraps a compute unit that is either batch-capable
(`Runner`), scalar-only (`SimpleRunner`), or neither, and exposes single-call
and batch-call entry points guarded by a lazy three-state lifecycle.
Python values are embedded shallowly: positional arguments become a `List`,
a batch value is the list of its elements, and a possibly-lazy Python
sequence is a `PySeq` tagging whether the value is a directly indexable
list or a single-consumption generator.  Exceptions are embedded as
`Except RunError`.
-/

/-- The lifecycle state enum.  The source (`RunnerState` in `runner.py`, not
part of this slice) is used in `local.py` through the three members
`INIT`, `SETTING`, `SET`; the spec names them UNINITIALIZED, INITIALIZING,
READY. -/
inductive RunnerState where
  | INIT
  | SETTING
  | SET
deriving DecidableEq, Repr

namespace RunnerState

/-- Forward order of the lifecycle: INIT before SETTING before SET. -/
def toNat : RunnerState → Nat
  | .INIT => 0
  | .SETTING => 1
  | .SET => 2

end RunnerState

/-- Exceptions that the adapter's entry points can raise.
`setupFailure` stands for whatever exception the unit's `_setup` raised;
`unsupportedOperation` is the `RuntimeError("shall not call run_batch on a
simple runner")`; `indexError` is Python's IndexError from
`single_results[0]` on an empty sequence; `typeError` is Python's TypeError
from subscripting a generator. -/
inductive RunError where
  | setupFailure
  | unsupportedOperation
  | indexError
  | typeError
deriving DecidableEq, Repr

/-- A Python sequence value as the adapter sees it: either a directly
indexable list, or a single-consumption generator (`GeneratorType`) whose
elements, when fully consumed in order, are `items`. -/
inductive PySeq (β : Type) where
  | list (items : List β)
  | gen (items : List β)
deriving DecidableEq, Repr

namespace PySeq

/-- The elements produced by fully consuming the sequence (what Python's
`list(s)` returns). -/
def toList {β : Type} : PySeq β → List β
  | .list items => items
  | .gen items => items

end PySeq

/-- Python subscripting `s[i]`: works on a list (IndexError when out of
range), raises TypeError on a generator. -/
def pyIndex {β : Type} (s : PySeq β) (i : Nat) : Except RunError β :=
  match s with
  | .list items =>
      match items.get? i with
      | some v => .ok v
      | none => .error .indexError
  | .gen _ => .error .typeError

/-- The materialization step of `LocalRunner.run`:
`if isinstance(single_results, GeneratorType): single_results =
list(single_results)`. -/
def materializeIfGen {β : Type} : PySeq β → PySeq β
  | .gen items => .list items
  | s => s

namespace AutoContainer

/-- Modelled from the spec: `AutoContainer.singles_to_batch` (the
`container.py` module is not part of this slice) combines an ordered
sequence of items into one batched value such that slicing the batch along
the axis at position i recovers `items[i]`; for the abstract values of this
embedding the batch is the ordered collection of its elements, so the
list representation is the identity, whatever the axis. -/
def singles_to_batch {γ : Type} (items : List γ) (batch_axis : Option Int) :
    List γ :=
  items

/-- Modelled from the spec: `AutoContainer.batch_to_singles` is the inverse
of `singles_to_batch`, splitting a batch into one item per unit along the
axis.  In list representation it is the identity; a lazy (generator) batch
result flows through still lazy, which is why `LocalRunner.run`
materializes afterwards. -/
def batch_to_singles {β : Type} (batch : PySeq β) (batch_axis : Option Int) :
    PySeq β :=
  batch

end AutoContainer

/-- The wrapped compute unit, dispatched by `isinstance` in the source.
`Runner` is the batch-capable variant: its `_run_batch` takes one batch per
positional argument and returns a batched result (possibly a generator),
and its `batch_options` carry the two axis configuration values.
`SimpleRunner` is the scalar-only variant with `_run`.  `other` is any
object of neither class (the source's fall-through).  The `Runner` and
`SimpleRunner` classes themselves are not part of this slice; their
interface is modelled from the spec (setup plus `run_batch` and axis
configuration, or setup plus `run_scalar`). -/
inductive WrappedRunner (α β : Type) where
  | Runner (run_batch : List (List α) → PySeq β)
      (input_batch_axis output_batch_axis : Option Int)
  | SimpleRunner (run : List α → β)
  | other
deriving Inhabited

/-- The adapter's mutable state: the lifecycle field `_state` plus an
observation counter of how many times the unit's `_setup` routine has been
invoked (the unit executes its setup once per invocation). -/
structure AdapterState where
  state : RunnerState
  setupCalls : Nat
deriving DecidableEq, Repr

namespace LocalRunner

/-- `LocalRunner.setup`.  `sf` tells whether the unit's `_setup` routine
raises when invoked.  Mirrors the source: return immediately unless the
state is INIT; otherwise set SETTING, invoke `_setup` (counted; if it
raises the exception propagates and the final assignment never runs), then
set SET. -/
def setup (sf : Bool) (s : AdapterState) : AdapterState × Except RunError Unit :=
  if s.state ≠ RunnerState.INIT then (s, .ok ())
  else
    let s1 : AdapterState :=
      { state := RunnerState.SETTING, setupCalls := s.setupCalls + 1 }
    if sf then (s1, .error .setupFailure)
    else ({ s1 with state := RunnerState.SET }, .ok ())

/-- The lazy-setup guard at the top of `run` and `run_batch`:
`if self._state is RunnerState.INIT: self.setup()`. -/
def maybeSetup (sf : Bool) (s : AdapterState) :
    AdapterState × Except RunError Unit :=
  if s.state = RunnerState.INIT then setup sf s else (s, .ok ())

/-- `LocalRunner.run`.  After the lazy-setup guard: for a batch-capable
unit, wrap every positional argument into a one-element batch via
`singles_to_batch`, invoke the unit's `_run_batch`, split the result via
`batch_to_singles`, materialize it if it is a generator, and return element
0; for a scalar unit, delegate to `_run`; for any other unit, fall through
returning None (embedded as `none`). -/
def run {α β : Type} (u : WrappedRunner α β) (sf : Bool) (s : AdapterState)
    (args : List α) : AdapterState × Except RunError (Option β) :=
  match maybeSetup sf s with
  | (s1, .error e) => (s1, .error e)
  | (s1, .ok _) =>
      match u with
      | .Runner rb ia oa =>
          let params := args.map fun i => AutoContainer.singles_to_batch [i] ia
          let batch_result := rb params
          let single_results := AutoContainer.batch_to_singles batch_result oa
          let single_results := materializeIfGen single_results
          (s1, (pyIndex single_results 0).map some)
      | .SimpleRunner r => (s1, .ok (some (r args)))
      | .other => (s1, .ok none)

/-- `LocalRunner.run_batch`.  After the lazy-setup guard: for a
batch-capable unit, delegate directly to `_run_batch`; for a scalar unit,
raise `RuntimeError("shall not call run_batch on a simple runner")`
(the spec's UnsupportedOperation); for any other unit, fall through
returning None. -/
def run_batch {α β : Type} (u : WrappedRunner α β) (sf : Bool)
    (s : AdapterState) (args : List (List α)) :
    AdapterState × Except RunError (Option (PySeq β)) :=
  match maybeSetup sf s with
  | (s1, .error e) => (s1, .error e)
  | (s1, .ok _) =>
      match u with
      | .Runner rb _ _ => (s1, .ok (some (rb args)))
      | .SimpleRunner _ => (s1, .error .unsupportedOperation)
      | .other => (s1, .ok none)

/-- `LocalRunner.async_run`: `return self.run(*args, **kwargs)` — the
cooperative-suspension variant computes synchronously. -/
def async_run {α β : Type} (u : WrappedRunner α β) (sf : Bool)
    (s : AdapterState) (args : List α) :
    AdapterState × Except RunError (Option β) :=
  run u sf s args

/-- `LocalRunner.async_run_batch`: `return self.run_batch(*args, **kwargs)`. -/
def async_run_batch {α β : Type} (u : WrappedRunner α β) (sf : Bool)
    (s : AdapterState) (args : List (List α)) :
    AdapterState × Except RunError (Option (PySeq β)) :=
  run_batch u sf s args

end LocalRunner

/-- One invocation in a lifecycle trace: an explicit `setup` call, or a
`run`/`run_batch` call that triggers setup lazily. -/
inductive LifecycleOp (α : Type) where
  | setupOp
  | runOp (args : List α)
  | runBatchOp (args : List (List α))

/-- The adapter state after one invocation (results discarded). -/
def execOp {α β : Type} (u : WrappedRunner α β) (sf : Bool)
    (op : LifecycleOp α) (s : AdapterState) : AdapterState :=
  match op with
  | .setupOp => (LocalRunner.setup sf s).1
  | .runOp args => (LocalRunner.run u sf s args).1
  | .runBatchOp args => (LocalRunner.run_batch u sf s args).1

/-- The adapter state after a sequence of invocations. -/
def execOps {α β : Type} (u : WrappedRunner α β) (sf : Bool)
    (ops : List (LifecycleOp α)) (s : AdapterState) : AdapterState :=
  ops.foldl (fun s op => execOp u sf op s) s

/-- The adapter's initial state: `_state = INIT`, unit setup never run. -/
def initState : AdapterState := { state := RunnerState.INIT, setupCalls := 0 }

/-- Plain indexing `r[0]` on the value returned by `run_batch`, lifted over
the exception and over the None fall-through. -/
def firstOfBatch {β : Type} (r : Except RunError (Option (PySeq β))) :
    Except RunError (Option β) :=
  r.bind fun ob =>
    match ob with
    | some q => (pyIndex q 0).map some
    | none => .ok none

namespace CondaEnv

/-- One iteration of the loop body of `CondaEnv.add_channels`: if the
current channel is not yet in the environment's channel list, append the
whole `channels` argument; otherwise only log. -/
def addStep (channels : List String) (acc : List String) (c : String) :
    List String :=
  if c ∈ acc then acc else acc ++ channels

/-- `CondaEnv.add_channels`: iterate over `channels`, appending the entire
`channels` list whenever the current channel is absent from the (evolving)
channel list. -/
def add_channels (env_channels : List String) (channels : List String) :
    List String :=
  channels.foldl (addStep channels) env_channels

/-- The behaviour claimed of `add_channels` (stated from the claim's words,
for comparison): the entire list `cs` is appended once for each channel of
`cs` that was not already present in the original list. -/
def add_channels_claimed (env_channels : List String)
    (channels : List String) : List String :=
  env_channels ++
    (List.replicate
      (channels.filter (fun c => ¬ (c ∈ env_channels))).length
      channels).flatten

end CondaEnv

section HelperLemmas

lemma setup_of_not_init (sf : Bool) (s : AdapterState)
    (h : s.state ≠ RunnerState.INIT) :
    LocalRunner.setup sf s = (s, .ok ()) := by
  simp [LocalRunner.setup, h]

lemma maybeSetup_of_not_init (sf : Bool) (s : AdapterState)
    (h : s.state ≠ RunnerState.INIT) :
    LocalRunner.maybeSetup sf s = (s, .ok ()) := by
  simp [LocalRunner.maybeSetup, h]

lemma setup_init_ok (s : AdapterState) (h : s.state = RunnerState.INIT) :
    LocalRunner.setup false s =
      ({ state := RunnerState.SET, setupCalls := s.setupCalls + 1 }, .ok ()) := by
  simp [LocalRunner.setup, h]

lemma setup_init_fail (s : AdapterState) (h : s.state = RunnerState.INIT) :
    LocalRunner.setup true s =
      ({ state := RunnerState.SETTING, setupCalls := s.setupCalls + 1 },
        .error .setupFailure) := by
  simp [LocalRunner.setup, h]

lemma execOp_of_not_init {α β : Type} (u : WrappedRunner α β) (sf : Bool)
    (op : LifecycleOp α) (s : AdapterState)
    (h : s.state ≠ RunnerState.INIT) :
    execOp u sf op s = s := by
  cases op <;> cases u <;>
    simp [execOp, LocalRunner.run, LocalRunner.run_batch,
      maybeSetup_of_not_init sf s h, setup_of_not_init sf s h]

lemma execOp_of_init {α β : Type} (u : WrappedRunner α β)
    (op : LifecycleOp α) (s : AdapterState)
    (h : s.state = RunnerState.INIT) :
    execOp u false op s =
      { state := RunnerState.SET, setupCalls := s.setupCalls + 1 } := by
  cases op <;> cases u <;>
    simp [execOp, LocalRunner.run, LocalRunner.run_batch,
      LocalRunner.maybeSetup, h, setup_init_ok s h]

lemma execOps_of_set {α β : Type} (u : WrappedRunner α β) (sf : Bool)
    (ops : List (LifecycleOp α)) (s : AdapterState)
    (h : s.state = RunnerState.SET) :
    execOps u sf ops s = s := by
  induction ops with
  | nil => rfl
  | cons op rest ih =>
      have hne : s.state ≠ RunnerState.INIT := by simp [h]
      simp [execOps] at ih ⊢
      rw [execOp_of_not_init u sf op s hne, ih]

lemma execOp_state_mono {α β : Type} (u : WrappedRunner α β) (sf : Bool)
    (op : LifecycleOp α) (s : AdapterState) :
    s.state.toNat ≤ (execOp u sf op s).state.toNat := by
  by_cases h : s.state = RunnerState.INIT
  · rw [h]; exact Nat.zero_le _
  · rw [execOp_of_not_init u sf op s h]

end HelperLemmas

/-- C1: for a batch-capable wrapped unit whose batch result on the
one-element batch `[x]` is an indexable sequence, the single-call entry
point `run(x)` returns the same value as `run_batch([x])[0]`, the first
element of the batch-call result (failures included, on both the setup and
the indexing path). -/
theorem c1_single_equals_batch_first {α β : Type}
    (rb : List (List α) → PySeq β) (ia oa : Option Int) (sf : Bool)
    (s : AdapterState) (x : α) (items : List β)
    (h : rb [[x]] = PySeq.list items) :
    (LocalRunner.run (WrappedRunner.Runner rb ia oa) sf s [x]).2 =
      firstOfBatch
        (LocalRunner.run_batch (WrappedRunner.Runner rb ia oa) sf s [[x]]).2 := by
  rcases hms : LocalRunner.maybeSetup sf s with ⟨s1, r⟩
  cases r with
  | error e =>
      simp [LocalRunner.run, LocalRunner.run_batch, hms, firstOfBatch,
        Except.bind]
  | ok u =>
      simp [LocalRunner.run, LocalRunner.run_batch, hms, firstOfBatch,
        AutoContainer.singles_to_batch, AutoContainer.batch_to_singles, h,
        materializeIfGen, Except.bind]

/-- C1 witness: a concrete batch-capable unit (squares its inputs), input
5: `run(5)` equals `run_batch([5])[0]`. -/
theorem c1_single_equals_batch_first_w :
    ((fun b : List (List Nat) => PySeq.list (b.flatten.map fun v => v * v))
        [[5]] = PySeq.list [25]) ∧
    (LocalRunner.run
        (WrappedRunner.Runner
          (fun b : List (List Nat) => PySeq.list (b.flatten.map fun v => v * v))
          (some 0) (some 0))
        false initState [5]).2 =
      firstOfBatch
        (LocalRunner.run_batch
          (WrappedRunner.Runner
            (fun b : List (List Nat) =>
              PySeq.list (b.flatten.map fun v => v * v))
            (some 0) (some 0))
          false initState [[5]]).2 :=
  ⟨rfl,
    c1_single_equals_batch_first
      (fun b : List (List Nat) => PySeq.list (b.flatten.map fun v => v * v))
      (some 0) (some 0) false initState 5 [25] rfl⟩

/-- C2: any nonempty sequence of lifecycle invocations (explicit setup, or
run/run_batch triggering setup lazily) from the initial state, with the
unit's setup succeeding, executes the unit's setup routine exactly once and
ends with the state READY (SET); moreover every single invocation, from any
state and whatever the setup outcome, moves the state only forward in the
order INIT, SETTING, SET. -/
theorem c2_setup_once_monotone {α β : Type} (u : WrappedRunner α β)
    (ops : List (LifecycleOp α)) (h : ops ≠ []) :
    (execOps u false ops initState).setupCalls = 1 ∧
    (execOps u false ops initState).state = RunnerState.SET ∧
    ∀ (sf : Bool) (s : AdapterState) (op : LifecycleOp α),
      s.state.toNat ≤ (execOp u sf op s).state.toNat := by
  match ops, h with
  | op :: rest, _ =>
      have h1 : execOp u false op initState =
          { state := RunnerState.SET, setupCalls := 1 } :=
        execOp_of_init u op initState rfl
      have h2 : execOps u false (op :: rest) initState =
          { state := RunnerState.SET, setupCalls := 1 } := by
        show execOps u false rest (execOp u false op initState) = _
        rw [h1]; exact execOps_of_set u false rest _ rfl
      exact ⟨by rw [h2], by rw [h2],
        fun sf s op => execOp_state_mono u sf op s⟩

/-- C2 witness: the singleton trace consisting of one explicit setup call
on a unit of the fall-through kind. -/
theorem c2_setup_once_monotone_w :
    (([LifecycleOp.setupOp] : List (LifecycleOp Nat)) ≠ []) ∧
    ((execOps (WrappedRunner.other : WrappedRunner Nat Nat) false
        [LifecycleOp.setupOp] initState).setupCalls = 1 ∧
      (execOps (WrappedRunner.other : WrappedRunner Nat Nat) false
        [LifecycleOp.setupOp] initState).state = RunnerState.SET ∧
      ∀ (sf : Bool) (s : AdapterState) (op : LifecycleOp Nat),
        s.state.toNat ≤
          (execOp (WrappedRunner.other : WrappedRunner Nat Nat) sf op
            s).state.toNat) :=
  ⟨by simp,
    c2_setup_once_monotone (WrappedRunner.other : WrappedRunner Nat Nat)
      [LifecycleOp.setupOp] (by simp)⟩

/-- C3: on a scalar-only (SimpleRunner) unit whose setup succeeds,
`run_batch` always fails with the UnsupportedOperation error (the source's
RuntimeError), for any arguments and from any state, and the unit's
execution routine is never invoked: the outcome does not depend on it. -/
theorem c3_run_batch_simple_unsupported {α β : Type} (g : List α → β)
    (sf : Bool) (s : AdapterState) (args : List (List α))
    (hsf : sf = false) :
    (LocalRunner.run_batch (WrappedRunner.SimpleRunner g) sf s args).2 =
      .error .unsupportedOperation ∧
    ∀ g' : List α → β,
      LocalRunner.run_batch (WrappedRunner.SimpleRunner g) sf s args =
        LocalRunner.run_batch (WrappedRunner.SimpleRunner g') sf s args := by
  subst hsf
  by_cases hI : s.state = RunnerState.INIT <;>
    simp [LocalRunner.run_batch, LocalRunner.maybeSetup, LocalRunner.setup, hI]

/-- C3 witness: a concrete scalar unit, empty arguments, initial state. -/
theorem c3_run_batch_simple_unsupported_w :
    ((false : Bool) = false) ∧
    ((LocalRunner.run_batch
        (WrappedRunner.SimpleRunner (fun args : List Nat => args.length))
        false initState []).2 = .error .unsupportedOperation ∧
      ∀ g' : List Nat → Nat,
        LocalRunner.run_batch
            (WrappedRunner.SimpleRunner (fun args : List Nat => args.length))
            false initState [] =
          LocalRunner.run_batch (WrappedRunner.SimpleRunner g') false
            initState []) :=
  ⟨rfl,
    c3_run_batch_simple_unsupported (fun args : List Nat => args.length)
      false initState [] rfl⟩

/-- C4: if the unit's setup routine raises while the lifecycle setup
operation is doing real work (state INIT), the failure propagates to the
caller and the state is not left at READY (SET): it stays at INITIALIZING
(SETTING). -/
theorem c4_setup_failure_not_ready (s : AdapterState)
    (h : s.state = RunnerState.INIT) :
    (LocalRunner.setup true s).2 = .error .setupFailure ∧
    (LocalRunner.setup true s).1.state ≠ RunnerState.SET ∧
    (LocalRunner.setup true s).1.state = RunnerState.SETTING := by
  rw [setup_init_fail s h]
  exact ⟨rfl, by simp, rfl⟩

/-- C4 witness: the initial state. -/
theorem c4_setup_failure_not_ready_w :
    initState.state = RunnerState.INIT ∧
    ((LocalRunner.setup true initState).2 = .error .setupFailure ∧
      (LocalRunner.setup true initState).1.state ≠ RunnerState.SET ∧
      (LocalRunner.setup true initState).1.state = RunnerState.SETTING) :=
  ⟨rfl, c4_setup_failure_not_ready initState rfl⟩

/-- C5: when a batch-capable unit's batch execution returns a
single-consumption generator of length 1, `run(x)` materializes it before
indexing and returns its only element, without raising (in particular no
TypeError from indexing the generator). -/
theorem c5_lazy_result_materialized {α β : Type}
    (rb : List (List α) → PySeq β) (ia oa : Option Int) (s : AdapterState)
    (x : α) (a : β) (h : rb [[x]] = PySeq.gen [a]) :
    (LocalRunner.run (WrappedRunner.Runner rb ia oa) false s [x]).2 =
      .ok (some a) := by
  by_cases hI : s.state = RunnerState.INIT <;>
    simp [LocalRunner.run, LocalRunner.maybeSetup, LocalRunner.setup, hI,
      AutoContainer.singles_to_batch, AutoContainer.batch_to_singles, h,
      materializeIfGen, pyIndex, Except.map]

/-- C5 witness: a unit returning the generator producing exactly `[7]`. -/
theorem c5_lazy_result_materialized_w :
    ((fun _ : List (List Nat) => PySeq.gen [7]) [[3]] = PySeq.gen [7]) ∧
    (LocalRunner.run
        (WrappedRunner.Runner (fun _ : List (List Nat) => PySeq.gen [7])
          none none)
        false initState [3]).2 = .ok (some 7) :=
  ⟨rfl,
    c5_lazy_result_materialized (fun _ : List (List Nat) => PySeq.gen [7])
      none none initState 3 7 rfl⟩

/-- C7: the cooperative-suspension entry points compute exactly what the
synchronous ones do — same state, same result or failure — for every unit,
setup behaviour, state and arguments. -/
theorem c7_async_equals_sync {α β : Type} (u : WrappedRunner α β)
    (sf : Bool) (s : AdapterState) (args : List α)
    (bargs : List (List α)) :
    LocalRunner.async_run u sf s args = LocalRunner.run u sf s args ∧
    LocalRunner.async_run_batch u sf s bargs =
      LocalRunner.run_batch u sf s bargs :=
  ⟨rfl, rfl⟩

/-- C6 counterexample: a batch-capable unit whose batch execution on the
one-element batch recovers 2 single results.  The claim demands a
ShapeMismatch failure; the adapter instead succeeds, silently returning
element 0. -/
theorem c6_counterexample :
    (AutoContainer.batch_to_singles
      ((fun _ : List (List Nat) => PySeq.list [10, 20]) [[5]])
      none).toList.length = 2 ∧
    (LocalRunner.run
        (WrappedRunner.Runner (fun _ : List (List Nat) => PySeq.list [10, 20])
          none none)
        false initState [5]).2 = Except.ok (some 10) := by
  constructor
  · rfl
  · rfl

/-- C6 amended: the single-call path performs no count check at all — when
the recovered single count is 0 it fails with IndexError (not
ShapeMismatch), and when it is at least 1 it returns element 0, silently
ignoring any extra results. -/
theorem c6_no_shape_check {α β : Type} (rb : List (List α) → PySeq β)
    (ia oa : Option Int) (s : AdapterState) (x : α) :
    ((AutoContainer.batch_to_singles (rb [[x]]) oa).toList = [] →
      (LocalRunner.run (WrappedRunner.Runner rb ia oa) false s [x]).2 =
        .error .indexError) ∧
    (∀ (a : β) (rest : List β),
      (AutoContainer.batch_to_singles (rb [[x]]) oa).toList = a :: rest →
      (LocalRunner.run (WrappedRunner.Runner rb ia oa) false s [x]).2 =
        .ok (some a)) := by
  constructor
  · intro h0
    rcases hq : rb [[x]] with items | items <;>
      rw [AutoContainer.batch_to_singles, hq, PySeq.toList] at h0 <;>
      subst h0 <;>
      by_cases hI : s.state = RunnerState.INIT <;>
        simp [LocalRunner.run, LocalRunner.maybeSetup, LocalRunner.setup, hI,
          AutoContainer.singles_to_batch, AutoContainer.batch_to_singles, hq,
          materializeIfGen, pyIndex, Except.map]
  · intro a rest h0
    rcases hq : rb [[x]] with items | items <;>
      rw [AutoContainer.batch_to_singles, hq, PySeq.toList] at h0 <;>
      subst h0 <;>
      by_cases hI : s.state = RunnerState.INIT <;>
        simp [LocalRunner.run, LocalRunner.maybeSetup, LocalRunner.setup, hI,
          AutoContainer.singles_to_batch, AutoContainer.batch_to_singles, hq,
          materializeIfGen, pyIndex, Except.map]

/-- C6 amended witness: the 2-element batch result of the counterexample,
through the second branch; and an empty batch result through the first. -/
theorem c6_no_shape_check_w :
    ((AutoContainer.batch_to_singles
        ((fun _ : List (List Nat) => PySeq.list [10, 20]) [[5]])
        none).toList = 10 :: [20] ∧
      (LocalRunner.run
          (WrappedRunner.Runner
            (fun _ : List (List Nat) => PySeq.list [10, 20]) none none)
          false initState [5]).2 = .ok (some 10)) ∧
    ((AutoContainer.batch_to_singles
        ((fun _ : List (List Nat) => PySeq.list ([] : List Nat)) [[5]])
        none).toList = ([] : List Nat) ∧
      (LocalRunner.run
          (WrappedRunner.Runner
            (fun _ : List (List Nat) => PySeq.list ([] : List Nat)) none
            none)
          false initState [5]).2 = .error .indexError) :=
  ⟨⟨rfl,
      (c6_no_shape_check (fun _ : List (List Nat) => PySeq.list [10, 20])
        none none initState 5).2 10 [20] rfl⟩,
    ⟨rfl,
      (c6_no_shape_check
        (fun _ : List (List Nat) => PySeq.list ([] : List Nat)) none none
        initState 5).1 rfl⟩⟩

/-- C8: a wrapped unit that is neither a Runner nor a SimpleRunner falls
through both dispatch chains: `run` and `run_batch` raise nothing and
return None, and when the state was INIT the setup was performed first. -/
theorem c8_other_returns_none {α β : Type} (s : AdapterState)
    (args : List α) (bargs : List (List α)) :
    (LocalRunner.run (WrappedRunner.other : WrappedRunner α β) false s
        args).2 = .ok none ∧
    (LocalRunner.run_batch (WrappedRunner.other : WrappedRunner α β) false s
        bargs).2 = .ok none ∧
    (s.state = RunnerState.INIT →
      (LocalRunner.run (WrappedRunner.other : WrappedRunner α β) false s
          args).1 =
        { state := RunnerState.SET, setupCalls := s.setupCalls + 1 }) := by
  by_cases hI : s.state = RunnerState.INIT <;>
    simp [LocalRunner.run, LocalRunner.run_batch, LocalRunner.maybeSetup,
      LocalRunner.setup, hI]

/-- C8 witness: initial state, empty arguments, Nat-valued unit. -/
theorem c8_other_returns_none_w :
    ((LocalRunner.run (WrappedRunner.other : WrappedRunner Nat Nat) false
        initState []).2 = .ok none ∧
      (LocalRunner.run_batch (WrappedRunner.other : WrappedRunner Nat Nat)
        false initState []).2 = .ok none ∧
      (initState.state = RunnerState.INIT →
        (LocalRunner.run (WrappedRunner.other : WrappedRunner Nat Nat) false
            initState []).1 =
          { state := RunnerState.SET,
            setupCalls := initState.setupCalls + 1 })) ∧
    (LocalRunner.run (WrappedRunner.other : WrappedRunner Nat Nat) false
        initState []).1 =
      { state := RunnerState.SET, setupCalls := 1 } :=
  ⟨c8_other_returns_none initState [] [],
    (c8_other_returns_none initState ([] : List Nat) []).2.2 rfl⟩

/-- C9: once the state is stuck at INITIALIZING (SETTING) after a failed
setup, every subsequent `run`/`run_batch` call leaves the state (and the
setup invocation count) untouched — the unit's setup routine is never
retried — and goes straight to the unit's execution routine, whose result
it returns. -/
theorem c9_failed_setup_not_retried {α β : Type}
    (rb : List (List α) → PySeq β) (ia oa : Option Int) (g : List α → β)
    (sf : Bool) (s : AdapterState) (args : List α) (bargs : List (List α))
    (h : s.state = RunnerState.SETTING) :
    (LocalRunner.run (WrappedRunner.Runner rb ia oa) sf s args).1 = s ∧
    (LocalRunner.run (WrappedRunner.Runner rb ia oa) sf s args).2 =
      (pyIndex
        (materializeIfGen
          (AutoContainer.batch_to_singles
            (rb (args.map fun i => AutoContainer.singles_to_batch [i] ia))
            oa))
        0).map some ∧
    LocalRunner.run_batch (WrappedRunner.Runner rb ia oa) sf s bargs =
      (s, .ok (some (rb bargs))) ∧
    LocalRunner.run (WrappedRunner.SimpleRunner g) sf s args =
      (s, .ok (some (g args))) := by
  have hne : s.state ≠ RunnerState.INIT := by simp [h]
  simp [LocalRunner.run, LocalRunner.run_batch,
    maybeSetup_of_not_init sf s hne]

/-- C9 witness: a state stuck at SETTING after one failed setup; the
squaring batch unit is executed, state and counter unchanged. -/
theorem c9_failed_setup_not_retried_w :
    ({ state := RunnerState.SETTING, setupCalls := 1 } :
        AdapterState).state = RunnerState.SETTING ∧
    (LocalRunner.run
        (WrappedRunner.Runner
          (fun b : List (List Nat) => PySeq.list (b.flatten.map fun v => v + 1))
          none none)
        false { state := RunnerState.SETTING, setupCalls := 1 } [4]).1 =
      { state := RunnerState.SETTING, setupCalls := 1 } :=
  ⟨rfl,
    (c9_failed_setup_not_retried
      (fun b : List (List Nat) => PySeq.list (b.flatten.map fun v => v + 1))
      none none (fun _ => 0) false
      { state := RunnerState.SETTING, setupCalls := 1 } [4] [] rfl).1⟩

section CondaEnvLemmas

lemma foldl_addStep_all_mem (cs : List String) :
    ∀ (it acc : List String), (∀ c ∈ it, c ∈ acc) →
      List.foldl (CondaEnv.addStep cs) acc it = acc := by
  intro it
  induction it with
  | nil => intro acc _; rfl
  | cons c rest ih =>
      intro acc h
      have hc : c ∈ acc := h c (by simp)
      have hstep : CondaEnv.addStep cs acc c = acc := by
        simp [CondaEnv.addStep, hc]
      simp only [List.foldl_cons, hstep]
      exact ih acc fun d hd => h d (by simp [hd])

lemma foldl_addStep_some_absent (cs : List String) :
    ∀ (it acc : List String), (∀ c ∈ it, c ∈ cs) →
      (∃ c ∈ it, c ∉ acc) →
      List.foldl (CondaEnv.addStep cs) acc it = acc ++ cs := by
  intro it
  induction it with
  | nil => intro acc _ h; simp at h
  | cons c rest ih =>
      intro acc hsub hex
      by_cases hc : c ∈ acc
      · have hstep : CondaEnv.addStep cs acc c = acc := by
          simp [CondaEnv.addStep, hc]
        simp only [List.foldl_cons, hstep]
        refine ih acc (fun d hd => hsub d (by simp [hd])) ?_
        rcases hex with ⟨d, hd, hda⟩
        rcases List.mem_cons.mp hd with rfl | hdr
        · exact absurd hc hda
        · exact ⟨d, hdr, hda⟩
      · have hstep : CondaEnv.addStep cs acc c = acc ++ cs := by
          simp [CondaEnv.addStep, hc]
        simp only [List.foldl_cons, hstep]
        exact foldl_addStep_all_mem cs rest (acc ++ cs) fun d hd => by
          simp [hsub d (by simp [hd])]

end CondaEnvLemmas

/-- C10 counterexample: `add_channels` on an empty channel list with two
new channels `["a", "b"]` appends the argument list once, giving
`["a", "b"]`; the claim (two absent channels, so two appends) predicts
`["a", "b", "a", "b"]`. -/
theorem c10_counterexample :
    CondaEnv.add_channels [] ["a", "b"] = ["a", "b"] ∧
    CondaEnv.add_channels_claimed [] ["a", "b"] = ["a", "b", "a", "b"] ∧
    CondaEnv.add_channels [] ["a", "b"] ≠
      CondaEnv.add_channels_claimed [] ["a", "b"] := by
  refine ⟨rfl, rfl, ?_⟩
  decide

/-- C10 amended: if every channel of `cs` is already present, the channel
list is unchanged; otherwise the entire list `cs` is appended exactly once
(the first absent channel triggers the append, after which every channel of
`cs` is present and the remaining iterations do nothing) — so a call mixing
a new channel with already-present ones introduces duplicates of the
already-present ones. -/
theorem c10_append_once (L cs : List String) :
    ((∀ c ∈ cs, c ∈ L) → CondaEnv.add_channels L cs = L) ∧
    ((∃ c ∈ cs, c ∉ L) → CondaEnv.add_channels L cs = L ++ cs) :=
  ⟨fun h => foldl_addStep_all_mem cs cs L h,
    fun h => foldl_addStep_some_absent cs cs L (fun _ hc => hc) h⟩

/-- C10 amended witness: all channels already present leaves
`["conda-forge", "defaults"]` unchanged; `["x", "n"]` against `["x"]`
appends the whole argument once, duplicating `"x"`. -/
theorem c10_append_once_w :
    ((∀ c ∈ ["conda-forge"], c ∈ ["conda-forge", "defaults"]) ∧
      CondaEnv.add_channels ["conda-forge", "defaults"] ["conda-forge"] =
        ["conda-forge", "defaults"]) ∧
    ((∃ c ∈ ["x", "n"], c ∉ ["x"]) ∧
      CondaEnv.add_channels ["x"] ["x", "n"] = ["x", "x", "n"]) :=
  ⟨⟨by decide,
      (c10_append_once ["conda-forge", "defaults"] ["conda-forge"]).1
        (by decide)⟩,
    ⟨by decide, (c10_append_once ["x"] ["x", "n"]).2 (by decide)⟩⟩
